import Mathlib

set_option autoImplicit false

/-!
Shallow embedding of clam/common/metadata.py: the profile and metadata
generation engine.  Python values, parameter conditions, input and output
templates, profiles and the generation algorithm are translated function by
function from the source.  Python 2 runtime behaviour that the source relies
on (dynamic typing, exceptions, truthiness, closure capture of the kwargs
loop variable) is made explicit in the model.
-/

/-- Python runtime errors raised by the translated code. -/
inductive PyErr : Type where
  | typeError (msg : String)
  | valueError (msg : String)
  | keyError (msg : String)
  | attributeError (msg : String)
  | unboundLocalError (msg : String)
  | assertionError (msg : String)
  | exception (msg : String)

/-- Python values occurring as submitted parameter values and metadata
attribute values. -/
inductive PyVal : Type where
  | none
  | bool (b : Bool)
  | int (n : Int)
  | str (s : String)
  | list (vs : List PyVal)

mutual

/-- Python equality between plain values.  Booleans compare equal to the
numbers 0 and 1, mismatched types are unequal, lists compare elementwise. -/
def pyEq : PyVal → PyVal → Bool
  | .none, .none => true
  | .bool a, .bool b => a == b
  | .bool a, .int n => (if a then (1 : Int) else 0) == n
  | .int n, .bool b => n == (if b then (1 : Int) else 0)
  | .int a, .int b => a == b
  | .str a, .str b => a == b
  | .list a, .list b => pyEqList a b
  | _, _ => false

def pyEqList : List PyVal → List PyVal → Bool
  | [], [] => true
  | a :: ra, b :: rb => pyEq a b && pyEqList ra rb
  | _, _ => false

end

/-- Rank used by Python 2 for cross-type ordering comparisons: None sorts
below everything, numbers below other types, then type names alphabetically
(so lists below strings). -/
def pyTypeRank : PyVal → Nat
  | .none => 0
  | .bool _ => 1
  | .int _ => 1
  | .list _ => 2
  | .str _ => 3

mutual

/-- Python 2 ordering between plain values. -/
def pyLt : PyVal → PyVal → Bool
  | .bool a, .bool b => !a && b
  | .bool a, .int n => decide ((if a then (1 : Int) else 0) < n)
  | .int n, .bool b => decide (n < (if b then (1 : Int) else 0))
  | .int a, .int b => decide (a < b)
  | .str a, .str b => decide (a < b)
  | .list a, .list b => pyLtList a b
  | a, b => decide (pyTypeRank a < pyTypeRank b)

def pyLtList : List PyVal → List PyVal → Bool
  | [], [] => false
  | [], _ :: _ => true
  | _ :: _, [] => false
  | a :: ra, b :: rb => pyLt a b || (pyEq a b && pyLtList ra rb)

end

def pyLe (a b : PyVal) : Bool := pyLt a b || pyEq a b

def pyGt (a b : PyVal) : Bool := pyLt b a

def pyGe (a b : PyVal) : Bool := pyLe b a

/-- Python truthiness of a plain value. -/
def pyTruthy : PyVal → Bool
  | .none => false
  | .bool b => b
  | .int n => n != 0
  | .str s => s != ""
  | .list l => !l.isEmpty

/-- Python slicing test `key[-n:] == pat`, i.e. a suffix test (computed on
the character list so that it reduces by iota). -/
def strEndsWith (s pat : String) : Bool :=
  pat.data.isSuffixOf s.data

/-- Python slicing `s[:-n]`: drop the last n characters. -/
def strDropRight (s : String) (n : Nat) : String :=
  ⟨s.data.take (s.data.length - n)⟩

def splitDotGo : List Char → List Char → List (List Char)
  | [], cur => [cur.reverse]
  | c :: rest, cur =>
      if c == '.' then cur.reverse :: splitDotGo rest []
      else splitDotGo rest (c :: cur)

/-- Python split on the dot character: `s.split(chr(46))`. -/
def splitDot (s : String) : List String :=
  (splitDotGo s.data []).map (fun l => ⟨l⟩)

/-- Python join with the dot character. -/
def joinDots : List String → String
  | [] => ""
  | [x] => x
  | x :: rest => x ++ "." ++ joinDots rest

def charListInfix (pat : List Char) : List Char → Bool
  | [] => pat.isEmpty
  | c :: rest => pat.isPrefixOf (c :: rest) || charListInfix pat rest

/-- Python substring containment `sub in s`. -/
def strContainsSub (s sub : String) : Bool :=
  if sub = "" then true else charListInfix sub.data s.data

/-- Python membership `x in container`: substring test on strings, elementwise
equality on lists, a TypeError on anything not iterable. -/
def pyInE (x container : PyVal) : Except PyErr Bool :=
  match container with
  | .str s =>
      match x with
      | .str sub => .ok (strContainsSub s sub)
      | _ => .error (.typeError "in <string> requires string as left operand")
  | .list l => .ok (l.any (fun e => pyEq x e))
  | _ => .error (.typeError "argument is not iterable")

/-- The flat submitted-parameter map (`parameters`). -/
abbrev Params := List (String × PyVal)

/-- A metadata dictionary (`self.data` of CLAMMetaData). -/
abbrev Data := List (String × PyVal)

def lookupParam (parameters : Params) (key : String) : Option PyVal :=
  (parameters.find? (fun kv => kv.1 == key)).map (fun kv => kv.2)

def dataGet (d : Data) (key : String) : Option PyVal :=
  ((d.find? (fun kv => kv.1 == key)).map (fun kv => kv.2))

def dataHas (d : Data) (key : String) : Bool :=
  d.any (fun kv => kv.1 == key)

def dataSet : Data → String → PyVal → Data
  | [], key, v => [(key, v)]
  | kv :: rest, key, v => if kv.1 == key then (key, v) :: rest else kv :: dataSet rest key v

def dataDel (d : Data) (key : String) : Data :=
  d.filter (fun kv => kv.1 != key)

/-- Python truthiness of an optional string attribute: None and the empty
string are falsy. -/
def optStrTruthy : Option String → Bool
  | Option.none => false
  | some s => s != ""

/-- Operator tags attached to the conditions built by
ParameterCondition.__init__ (the fourth tuple component in the source). -/
inductive OpTag : Type where
  | equals
  | notequals
  | greaterthan
  | greaterequalthan
  | lessthan
  | lessequalthan
  | containsOp

/-- The four concrete AbstractMetaField subclasses: SetMetaField,
UnsetMetaField, CopyMetaField and ParameterMetaField.  UnsetMetaField keeps
the default value None as `PyVal.none`; CopyMetaField and ParameterMetaField
carry their string-valued `value`. -/
inductive MetaField : Type where
  | set (key : String) (value : PyVal)
  | unset (key : String) (value : PyVal)
  | copy (key : String) (value : String)
  | parameter (key : String) (value : String)

/-- OutputTemplate.removeextensions: True (remove any single extension) or an
explicit list; the default is the empty list, which is falsy. -/
inductive RemoveExt : Type where
  | all
  | exts (l : List String)

/-- One value range of a CLAMMetaData attribute schema: a list enumerates the
admissible values, the booleans mark an attribute as optional or required with
any value, and any other (truthy) value is forced as fixed metadata. -/
inductive ValueRange : Type where
  | listV (vs : List PyVal)
  | boolV (b : Bool)
  | otherV (v : PyVal)

/-- A CLAMMetaData attribute schema (the class attribute `attributes` of a
format class, when it is not None). -/
abbrev AttrSchema := List (String × ValueRange)

/-- InputTemplate end state.  The format class and parameter specifications
belong to collaborators outside this engine; the fields that drive matching
and parent resolution are kept. -/
structure InputTemplate : Type where
  id : String
  label : String
  unique : Bool
  filename : Option String
  extension : Option String

mutual

/-- OutputTemplate end state after __init__.  The format class is represented
by its class-level `attributes` schema and `allowcustomattributes` flag. -/
inductive OutputTemplate : Type where
  | mk (id : String) (label : String)
       (formatAttributes : Option AttrSchema) (allowcustomattributes : Bool)
       (metafields : List MetaFieldEntry) (unique : Bool)
       (filename : Option String) (extension : Option String)
       (removeextensions : RemoveExt) (parent : Option String)
       (copymetadata : Bool)

/-- An entry of OutputTemplate.metafields: an AbstractMetaField or a nested
ParameterCondition. -/
inductive MetaFieldEntry : Type where
  | mf (f : MetaField)
  | pc (c : ParameterCondition)

/-- ParameterCondition end state after __init__.  `closure` is the final
value of the kwargs loop variable `value`: the condition lambdas close over
that one variable, so every condition is later evaluated against this shared
value, not against the value stored beside it in the tuple. -/
inductive ParameterCondition : Type where
  | mk (conditions : List (String × KwVal × OpTag)) (disjunction : KwVal)
       (closure : Option KwVal) (thenB : Option Branch)
       (otherwiseB : Option Branch)

/-- A then/otherwise branch: an InputTemplate, an OutputTemplate or a nested
ParameterCondition. -/
inductive Branch : Type where
  | inputT (t : InputTemplate)
  | outputT (o : OutputTemplate)
  | condT (c : ParameterCondition)

/-- A keyword-argument value passed to ParameterCondition.__init__: either a
plain Python value or a template/condition object. -/
inductive KwVal : Type where
  | val (v : PyVal)
  | br (b : Branch)

end

def OutputTemplate.id : OutputTemplate → String
  | .mk i _ _ _ _ _ _ _ _ _ _ => i

def OutputTemplate.label : OutputTemplate → String
  | .mk _ l _ _ _ _ _ _ _ _ _ => l

def OutputTemplate.formatAttributes : OutputTemplate → Option AttrSchema
  | .mk _ _ fa _ _ _ _ _ _ _ _ => fa

def OutputTemplate.allowcustomattributes : OutputTemplate → Bool
  | .mk _ _ _ ac _ _ _ _ _ _ _ => ac

def OutputTemplate.metafields : OutputTemplate → List MetaFieldEntry
  | .mk _ _ _ _ m _ _ _ _ _ _ => m

def OutputTemplate.unique : OutputTemplate → Bool
  | .mk _ _ _ _ _ u _ _ _ _ _ => u

def OutputTemplate.filename : OutputTemplate → Option String
  | .mk _ _ _ _ _ _ fn _ _ _ _ => fn

def OutputTemplate.extension : OutputTemplate → Option String
  | .mk _ _ _ _ _ _ _ e _ _ _ => e

def OutputTemplate.removeextensions : OutputTemplate → RemoveExt
  | .mk _ _ _ _ _ _ _ _ r _ _ => r

def OutputTemplate.parent : OutputTemplate → Option String
  | .mk _ _ _ _ _ _ _ _ _ p _ => p

def OutputTemplate.copymetadata : OutputTemplate → Bool
  | .mk _ _ _ _ _ _ _ _ _ _ c => c

/-- The in-place assignment `o.parent = parent` performed by
Profile.__init__. -/
def OutputTemplate.setParent : OutputTemplate → Option String → OutputTemplate
  | .mk i l fa ac m u fn e r _ c, p => .mk i l fa ac m u fn e r p c

def ParameterCondition.conditions : ParameterCondition → List (String × KwVal × OpTag)
  | .mk cs _ _ _ _ => cs

def ParameterCondition.disjunction : ParameterCondition → KwVal
  | .mk _ d _ _ _ => d

def ParameterCondition.closure : ParameterCondition → Option KwVal
  | .mk _ _ cl _ _ => cl

def ParameterCondition.thenB : ParameterCondition → Option Branch
  | .mk _ _ _ t _ => t

def ParameterCondition.otherwiseB : ParameterCondition → Option Branch
  | .mk _ _ _ _ o => o

/-- Python truthiness of a keyword-argument value: template and condition
objects are truthy. -/
def kwTruthy : KwVal → Bool
  | .val v => pyTruthy v
  | .br _ => true

/-- Evaluation of one condition lambda from ParameterCondition.__init__.
`x` is the looked-up parameter value; `cell` is the shared closure value (the
final kwargs loop value).  The lambdas for greaterequalthan and lessthan use
the comparison written in the source: `x > value` and `x >= value`
respectively.  When the closure holds a template object, Python 2 equality
goes through InputTemplate/OutputTemplate.__eq__, which dereferences
`other.id` on the plain value and raises AttributeError; a ParameterCondition
defines no equality and falls back to identity (false).  Ordering against an
object follows the Python 2 type-name rule (class names starting with an
upper-case letter sort below the type names list and str). -/
def evalOpE (op : OpTag) (x : PyVal) (cell : KwVal) : Except PyErr Bool :=
  match cell with
  | .val v =>
      match op with
      | .equals => .ok (pyEq x v)
      | .notequals => .ok (!pyEq x v)
      | .greaterthan => .ok (pyGt x v)
      | .greaterequalthan => .ok (pyGt x v)
      | .lessthan => .ok (pyGe x v)
      | .lessequalthan => .ok (pyLe x v)
      | .containsOp => pyInE x v
  | .br b =>
      match op with
      | .equals =>
          match b with
          | .condT _ => .ok false
          | _ => .error (.attributeError "str object has no attribute id")
      | .notequals =>
          match b with
          | .condT _ => .ok true
          | _ => .error (.attributeError "str object has no attribute id")
      | .greaterthan => .ok (decide (pyTypeRank x ≥ 2))
      | .greaterequalthan => .ok (decide (pyTypeRank x ≥ 2))
      | .lessthan => .ok (decide (pyTypeRank x ≥ 2))
      | .lessequalthan => .ok (decide (pyTypeRank x ≤ 1))
      | .containsOp => .error (.typeError "argument is not iterable")

/-- The kwargs loop of ParameterCondition.__init__, over an ordered kwargs
list.  The loop variable `value` rebinds on every item and the condition
lambdas capture the variable itself, so the final item value is recorded as
the shared `closure`.  A `then`/`else` value that is not a template is
silently ignored: the guarding `assert Exception(...)` in the source is a
no-op (an Exception instance is truthy).  Key suffixes are tested in source
order. -/
def ParameterCondition.fromKwargsGo :
    List (String × KwVal) → List (String × KwVal × OpTag) → KwVal →
    Option KwVal → Option Branch → Option Branch → ParameterCondition
  | [], conds, disj, clos, thenB, otherB => .mk conds disj clos thenB otherB
  | (key, value) :: rest, conds, disj, clos, thenB, otherB =>
      let _ := clos
      let clos := some value
      if key == "then" then
        match value with
        | .br b => ParameterCondition.fromKwargsGo rest conds disj clos (some b) otherB
        | .val _ => ParameterCondition.fromKwargsGo rest conds disj clos thenB otherB
      else if key == "else" || key == "otherwise" then
        match value with
        | .br b => ParameterCondition.fromKwargsGo rest conds disj clos thenB (some b)
        | .val _ => ParameterCondition.fromKwargsGo rest conds disj clos thenB otherB
      else if key == "disjunction" || key == "or" then
        ParameterCondition.fromKwargsGo rest conds value clos thenB otherB
      else if strEndsWith key "_notequals" then
        ParameterCondition.fromKwargsGo rest
          (conds ++ [(strDropRight key 10, value, .notequals)]) disj clos thenB otherB
      else if strEndsWith key "_greaterthan" then
        ParameterCondition.fromKwargsGo rest
          (conds ++ [(strDropRight key 12, value, .greaterthan)]) disj clos thenB otherB
      else if strEndsWith key "_greaterequalthan" then
        ParameterCondition.fromKwargsGo rest
          (conds ++ [(strDropRight key 17, value, .greaterequalthan)]) disj clos thenB otherB
      else if strEndsWith key "_lessthan" then
        ParameterCondition.fromKwargsGo rest
          (conds ++ [(strDropRight key 9, value, .lessthan)]) disj clos thenB otherB
      else if strEndsWith key "_lessequalthan" then
        ParameterCondition.fromKwargsGo rest
          (conds ++ [(strDropRight key 14, value, .lessequalthan)]) disj clos thenB otherB
      else if strEndsWith key "_contains" then
        ParameterCondition.fromKwargsGo rest
          (conds ++ [(strDropRight key 9, value, .containsOp)]) disj clos thenB otherB
      else if strEndsWith key "_equals" then
        ParameterCondition.fromKwargsGo rest
          (conds ++ [(strDropRight key 7, value, .equals)]) disj clos thenB otherB
      else
        ParameterCondition.fromKwargsGo rest
          (conds ++ [(key, value, .equals)]) disj clos thenB otherB

/-- ParameterCondition.__init__ over an ordered kwargs list.  `disjunction`
starts as Python False and `then`/`otherwise` as None. -/
def ParameterCondition.fromKwargs (kwargs : List (String × KwVal)) : ParameterCondition :=
  ParameterCondition.fromKwargsGo kwargs [] (.val (.bool false)) Option.none
    Option.none Option.none

/-- The loop of ParameterCondition.match: an absent parameter is looked up as
None; each condition short-circuits a disjunction on success and a
conjunction on failure; the lambdas are evaluated against the shared closure
value. -/
def conditionsMatch (disjunction : KwVal) (closure : KwVal) (parameters : Params) :
    List (String × KwVal × OpTag) → Except PyErr Bool
  | [] => if kwTruthy disjunction then .ok false else .ok true
  | (key, _, op) :: rest => do
      let value := (lookupParam parameters key).getD PyVal.none
      let b ← evalOpE op value closure
      if b then
        if kwTruthy disjunction then .ok true
        else conditionsMatch disjunction closure parameters rest
      else
        if kwTruthy disjunction then conditionsMatch disjunction closure parameters rest
        else .ok false

/-- ParameterCondition.match.  The closure default is never consulted: when a
condition exists, __init__ bound the loop variable at least once. -/
def ParameterCondition.matches (pc : ParameterCondition) (parameters : Params) :
    Except PyErr Bool :=
  conditionsMatch pc.disjunction (pc.closure.getD (.val PyVal.none)) parameters pc.conditions

/-- The value returned by ParameterCondition.evaluate: the Python False
sentinel (no match), None (a then/otherwise that was never assigned) or a
template/condition object. -/
inductive EvalResult : Type where
  | pyFalse
  | pyNone
  | branch (b : Branch)

def evalResultTruthy : EvalResult → Bool
  | .branch _ => true
  | _ => false

/-- ParameterCondition.evaluate.  On a nested condition the source calls
`self.then.evaluate()` (and `self.otherwise.evaluate()`) without the
parameters argument, which raises TypeError instead of recursing. -/
def ParameterCondition.evaluate (pc : ParameterCondition) (parameters : Params) :
    Except PyErr EvalResult := do
  let m ← pc.matches parameters
  if m then
    match pc.thenB with
    | some (.condT _) => .error (.typeError "evaluate() takes exactly 2 arguments (1 given)")
    | some b => .ok (.branch b)
    | Option.none => .ok .pyNone
  else
    match pc.otherwiseB with
    | some (.condT _) => .error (.typeError "evaluate() takes exactly 2 arguments (1 given)")
    | some b => .ok (.branch b)
    | Option.none => .ok .pyFalse

/-- ParameterCondition.allpossibilities: depth-first collection of the
terminal branches; a missing then branch contributes None, a missing
otherwise branch contributes nothing. -/
def ParameterCondition.allpossibilities : ParameterCondition → List (Option Branch)
  | .mk _ _ _ thenB otherB =>
      (match thenB with
       | some (.condT c) => c.allpossibilities
       | t => [t])
      ++
      (match otherB with
       | some (.condT c) => c.allpossibilities
       | some b => [some b]
       | Option.none => [])

/-- Documented reading of one condition: the operator applied to the
looked-up parameter value and the condition's own comparison value. -/
def specOpHolds : OpTag → PyVal → PyVal → Bool
  | .equals, x, v => pyEq x v
  | .notequals, x, v => !pyEq x v
  | .greaterthan, x, v => pyGt x v
  | .greaterequalthan, x, v => pyGe x v
  | .lessthan, x, v => pyLt x v
  | .lessequalthan, x, v => pyLe x v
  | .containsOp, x, v => ((pyInE x v).toOption).getD false

def specCondHolds (parameters : Params) : String × KwVal × OpTag → Bool
  | (key, .val v, op) => specOpHolds op ((lookupParam parameters key).getD PyVal.none) v
  | (_, .br _, _) => false

/-- Documented matching semantics: a conjunction holds when every condition
holds on its own pair, a disjunction when at least one does. -/
def specMatch (pc : ParameterCondition) (parameters : Params) : Bool :=
  if kwTruthy pc.disjunction then pc.conditions.any (specCondHolds parameters)
  else pc.conditions.all (specCondHolds parameters)

/-- The file/template association state of a project (the external
collaborator behind globsymlinks): for each input file a link
(inputtemplate id, sequence number, filename), plus the metadata stored
alongside each input file.  This is the state OutputTemplate.generate and
InputTemplate.matchingfiles read through `projectpath`. -/
structure ProjectState : Type where
  links : List (String × Int × String)
  filemeta : List (String × Data)

/-- A CLAMInputFile: a filename inside the project together with the metadata
loaded for it. -/
structure CLAMInputFile : Type where
  filename : String
  metadata : Data

/-- Construction CLAMInputFile(projectpath, filename): the collaborator loads
the stored metadata for the file (empty when none is stored). -/
def CLAMInputFile.load (projectpath : ProjectState) (filename : String) : CLAMInputFile :=
  ⟨filename, (((projectpath.filemeta.find? (fun kv => kv.1 == filename)).map
    (fun kv => kv.2)).getD [])⟩

/-- The scan of CopyMetaField.resolve over the relevant input files: every
file whose template id matches overwrites the key, so the last match wins;
the flag records whether any copy happened. -/
def copyResolve (key copytemplate copykey : String) :
    List (InputTemplate × CLAMInputFile) → Data → Data × Bool
  | [], data => (data, false)
  | (it, file) :: rest, data =>
      if it.id == copytemplate && dataHas file.metadata copykey then
        let data := dataSet data key ((dataGet file.metadata copykey).getD PyVal.none)
        let r := copyResolve key copytemplate copykey rest data
        (r.1, true)
      else
        copyResolve key copytemplate copykey rest data

/-- resolve() of the four AbstractMetaField subclasses: returns the mutated
draft and the mutated flag.  Set always writes; Unset deletes when the key is
present and no value is given or the stored value equals the given one; Copy
parses `templateid` or `templateid.key` and scans the relevant input files;
Parameter copies a submitted parameter when present. -/
def MetaField.resolve (f : MetaField) (data : Data) (parameters : Params)
    (_parentfile : Option CLAMInputFile)
    (relevantinputfiles : List (InputTemplate × CLAMInputFile)) :
    Except PyErr (Data × Bool) :=
  match f with
  | .set key value => .ok (dataSet data key value, true)
  | .unset key value =>
      if dataHas data key &&
          (!pyTruthy value ||
            (pyTruthy value && pyEq ((dataGet data key).getD PyVal.none) value)) then
        .ok (dataDel data key, true)
      else
        .ok (data, false)
  | .copy key value =>
      match splitDot value with
      | [copytemplate] => .ok (copyResolve key copytemplate key relevantinputfiles data)
      | [copytemplate, copykey] => .ok (copyResolve key copytemplate copykey relevantinputfiles data)
      | _ => .error (.exception ("Cant parse CopyMetaField value " ++ value))
  | .parameter key value =>
      match lookupParam parameters value with
      | some v => .ok (dataSet data key v, true)
      | Option.none => .ok (data, false)

/-- The file argument of CLAMMetaData.__init__: a CLAMFile, None, or (when an
OutputTemplate passes its filename string through generatemetadata) a plain
string, which the opening assert rejects. -/
inductive FileArg : Type where
  | pynone
  | clamfile (f : CLAMInputFile)
  | strval (s : String)

/-- The observable state of a constructed CLAMMetaData record. -/
structure MetaRecord : Type where
  file : FileArg
  data : Data
  inputtemplate : Option PyVal

/-- Python truthiness of the attributes schema (`if self.attributes:`): None
and the empty mapping are falsy. -/
def attrsTruthy : Option AttrSchema → Bool
  | Option.none => false
  | some l => !l.isEmpty

def schemaHas (attributes : Option AttrSchema) (key : String) : Bool :=
  (attributes.getD []).any (fun kv => kv.1 == key)

def schemaGet (attributes : Option AttrSchema) (key : String) : Option ValueRange :=
  ((attributes.getD []).find? (fun kv => kv.1 == key)).map (fun kv => kv.2)

/-- CLAMMetaData.__setitem__: an explicit schema rejects undeclared keys with
KeyError, an enumerated range rejects values outside it with ValueError, and
the closing assert rejects list values. -/
def CLAMMetaData.setitem (attributes : Option AttrSchema) (data : Data)
    (key : String) (value : PyVal) : Except PyErr Data :=
  if attributes.isSome && !schemaHas attributes key then
    .error (.keyError key)
  else if attrsTruthy attributes && schemaHas attributes key
      && (match schemaGet attributes key with
          | some (.listV vs) => !(vs.any (fun e => pyEq value e))
          | _ => false) then
    .error (.valueError ("Attribute assignment " ++ key ++ " has an invalid value"))
  else
    match value with
    | .list _ => .error (.assertionError "metadata values must not be lists")
    | _ => .ok (dataSet data key value)

/-- The kwargs loop of CLAMMetaData.__init__: `provenance` asserts a
CLAMProvenanceData instance (never a plain value), `inputtemplate` is stored
separately, everything else goes through __setitem__. -/
def CLAMMetaData.initKwargs (attributes : Option AttrSchema) :
    List (String × PyVal) → Data → Option PyVal →
    Except PyErr (Data × Option PyVal)
  | [], data, it => .ok (data, it)
  | (key, value) :: rest, data, it =>
      if key == "provenance" then
        .error (.assertionError "provenance must be CLAMProvenanceData")
      else if key == "inputtemplate" then
        CLAMMetaData.initKwargs attributes rest data (some value)
      else do
        let data ← CLAMMetaData.setitem attributes data key value
        CLAMMetaData.initKwargs attributes rest data it

/-- The attribute validation loop of CLAMMetaData.__init__ (source lines
217-229).  For an enumerated range, a missing key escapes the required-check
when False is in the range, but the elif then evaluates `self[key]` on the
absent key and raises KeyError.  True requires presence, False allows
anything, and any other truthy range value is forced via __setitem__. -/
def CLAMMetaData.validateAttrs (attributes : Option AttrSchema) :
    AttrSchema → Data → Except PyErr Data
  | [], data => .ok data
  | (key, .listV vs) :: rest, data =>
      if !dataHas data key && !(vs.any (fun e => pyEq (.bool false) e)) then
        .error (.valueError ("Required attribute " ++ key ++ " not specified"))
      else
        match dataGet data key with
        | Option.none => .error (.keyError key)
        | some v =>
            if !(vs.any (fun e => pyEq v e)) then
              .error (.valueError ("Attribute assignment " ++ key ++ " has an invalid value"))
            else
              CLAMMetaData.validateAttrs attributes rest data
  | (_, .boolV false) :: rest, data => CLAMMetaData.validateAttrs attributes rest data
  | (key, .boolV true) :: rest, data =>
      if !dataHas data key then
        .error (.valueError ("Required attribute " ++ key ++ " not specified"))
      else
        CLAMMetaData.validateAttrs attributes rest data
  | (key, .otherV v) :: rest, data =>
      if pyTruthy v then do
        let data ← CLAMMetaData.setitem attributes data key v
        CLAMMetaData.validateAttrs attributes rest data
      else
        CLAMMetaData.validateAttrs attributes rest data

/-- CLAMMetaData.__init__: asserts the file argument, processes the kwargs,
then (when a truthy schema is present) applies the custom-attribute check and
the attribute validation loop. -/
def CLAMMetaData.init (attributes : Option AttrSchema) (allowcustomattributes : Bool)
    (file : FileArg) (kwargs : List (String × PyVal)) : Except PyErr MetaRecord :=
  match file with
  | .strval _ => .error (.assertionError "file must be a CLAMFile or None")
  | _ => do
      let r ← CLAMMetaData.initKwargs attributes kwargs [] Option.none
      let data := r.1
      let inputtemplate := r.2
      if attrsTruthy attributes then
        if !allowcustomattributes && kwargs.any (fun kv => !schemaHas attributes kv.1) then
          .error (.keyError "Invalid attribute specified")
        else do
          let data ← CLAMMetaData.validateAttrs attributes (attributes.getD []) data
          .ok ⟨file, data, inputtemplate⟩
      else
        .ok ⟨file, data, inputtemplate⟩

def linkLe (a b : Int × String × InputTemplate) : Bool :=
  match compare a.1 b.1 with
  | .lt => true
  | .gt => false
  | .eq =>
      match compare a.2.1 b.2.1 with
      | .lt => true
      | .gt => false
      | .eq => true

def insertLink (x : Int × String × InputTemplate) :
    List (Int × String × InputTemplate) → List (Int × String × InputTemplate)
  | [] => [x]
  | y :: ys => if linkLe x y then x :: y :: ys else y :: insertLink x ys

/-- Python sorted() over the (seqnr, filename, inputtemplate) triples:
a stable sort by sequence number, then filename. -/
def sortLinks (l : List (Int × String × InputTemplate)) :
    List (Int × String × InputTemplate) :=
  l.foldr insertLink []

/-- InputTemplate.matchingfiles: collect the project links tagged with this
template id as sorted (seqnr, filename, self) triples; a unique template that
does not match exactly one file is unmatched (empty result). -/
def InputTemplate.matchingfiles (t : InputTemplate) (projectpath : ProjectState) :
    List (Int × String × InputTemplate) :=
  let results := sortLinks ((projectpath.links.filter (fun l => l.1 == t.id)).map
    (fun l => (l.2.1, l.2.2, t)))
  if t.unique && results.length != 1 then [] else results

/-- A Profile: the InputTemplates and the output list of OutputTemplates and
ParameterConditions collected by Profile.__init__. -/
structure Profile : Type where
  input : List InputTemplate
  output : List Branch

/-- OutputTemplate._findparent: the id of the first InputTemplate whose
unique flag equals this template's unique flag. -/
def OutputTemplate.findparent (o : OutputTemplate) (inputtemplates : List InputTemplate) :
    Option String :=
  (inputtemplates.find? (fun it => o.unique == it.unique)).map (fun it => it.id)

/-- InputTemplate.__eq__ (source line 379, `other.id == self.id`) applied to
a parent id string: the string operand has no id attribute, so the comparison
raises AttributeError. -/
def InputTemplate.eqPyStr (_t : InputTemplate) (_other : String) : Except PyErr Bool :=
  .error (.attributeError "str object has no attribute id")

def getparentScan (parent : String) : List InputTemplate → Except PyErr InputTemplate
  | [] => .error (.exception ("Parent InputTemplate " ++ parent ++ " not found!"))
  | it :: rest => do
      let same ← it.eqPyStr parent
      if same then .ok it else getparentScan parent rest

/-- OutputTemplate._getparent: resolve the stored parent id against the
profile's input list with `inputtemplate == self.parent`. -/
def OutputTemplate.getparent (o : OutputTemplate) (profile : Profile) :
    Except PyErr InputTemplate :=
  if !optStrTruthy o.parent then .error (.assertionError "self.parent")
  else getparentScan (o.parent.getD "") profile.input

/-- The metafield loop of OutputTemplate.generatemetadata: a nested
ParameterCondition is evaluated first and skipped on a falsy result; a truthy
result is asserted to be an AbstractMetaField, which a template or condition
object never is. -/
def resolveMetafields (parameters : Params) (parentfile : Option CLAMInputFile)
    (relevantinputfiles : List (InputTemplate × CLAMInputFile)) :
    List MetaFieldEntry → Data → Except PyErr Data
  | [], data => .ok data
  | (.pc c) :: rest, data => do
      let r ← c.evaluate parameters
      if evalResultTruthy r then
        .error (.assertionError "isinstance(metafield, AbstractMetaField)")
      else
        resolveMetafields parameters parentfile relevantinputfiles rest data
  | (.mf f) :: rest, data => do
      let r ← f.resolve data parameters parentfile relevantinputfiles
      resolveMetafields parameters parentfile relevantinputfiles rest r.1

/-- OutputTemplate.generatemetadata: seed the draft with the parent metadata
when copymetadata is set (an AttributeError when there is no parent file),
apply the metafield rules in order, and construct the format class on the
given filename argument and draft. -/
def OutputTemplate.generatemetadata (o : OutputTemplate) (filename : Option String)
    (parameters : Params) (parentfile : Option CLAMInputFile)
    (relevantinputfiles : List (InputTemplate × CLAMInputFile)) :
    Except PyErr MetaRecord := do
  let data : Data := []
  let data ←
    if o.copymetadata then
      match parentfile with
      | Option.none => .error (.attributeError "NoneType object has no attribute metadata")
      | some pf => .ok (pf.metadata.foldl (fun d kv => dataSet d kv.1 kv.2) data)
    else .ok data
  let data ← resolveMetafields parameters parentfile relevantinputfiles o.metafields data
  CLAMMetaData.init o.formatAttributes o.allowcustomattributes
    (match filename with | Option.none => .pynone | some s => .strval s) data

def removeExtTruthy : RemoveExt → Bool
  | .all => true
  | .exts l => !l.isEmpty

/-- The removeextensions block of OutputTemplate.generate: True strips one
trailing extension when there is one; a list strips each named extension that
is present as a dotted suffix. -/
def applyRemoveExtensions : RemoveExt → String → String
  | .all, filename =>
      let raw := (splitDot filename).dropLast
      if !raw.isEmpty then joinDots raw else filename
  | .exts l, filename =>
      l.foldl (fun fn ext =>
        if strEndsWith fn ("." ++ ext) then strDropRight fn (ext.length + 1) else fn) filename

/-- The per-parent-file loop of OutputTemplate.generate.  The locals
`filename` and `parentfile` persist across iterations; when the template has
its own filename the `elif parent:` branch that binds `parentfile` never
runs, so the later reference to `parentfile` in the yield raises
UnboundLocalError.  Line 700 calls `filename.replace` and discards the
result, so the multiplicity placeholder is never substituted; the loop keeps
the filename unchanged at that step. -/
def OutputTemplate.generateLoop (o : OutputTemplate) (parameters : Params)
    (projectpath : ProjectState) (inputfiles : List (Int × String × InputTemplate)) :
    List (Int × String × InputTemplate) → Option String → Option CLAMInputFile →
    Except PyErr (List (String × MetaRecord))
  | [], _, _ => .ok []
  | (seqnr, inputfilename, _) :: rest, _filenameVar, parentfileVar =>
      let state :=
        if optStrTruthy o.filename then (o.filename, parentfileVar)
        else (some inputfilename, some (CLAMInputFile.load projectpath inputfilename))
      let filenameVar := state.1
      let parentfileVar := state.2
      let relevantinputfiles :=
        (inputfiles.filter (fun x => x.1 == 0 || x.1 == seqnr)).map
          (fun x => (x.2.2, CLAMInputFile.load projectpath x.2.1))
      match filenameVar with
      | Option.none =>
          .error (.unboundLocalError "local variable filename referenced before assignment")
      | some fname0 =>
          let fname1 :=
            if removeExtTruthy o.removeextensions then
              applyRemoveExtensions o.removeextensions fname0
            else fname0
          let fname2 :=
            if optStrTruthy o.extension && !optStrTruthy o.filename then
              fname1 ++ "." ++ (o.extension.getD "")
            else fname1
          match parentfileVar with
          | Option.none =>
              .error (.unboundLocalError "local variable parentfile referenced before assignment")
          | some parentfile => do
              let record ← o.generatemetadata o.filename parameters (some parentfile)
                relevantinputfiles
              let restRecords ← OutputTemplate.generateLoop o parameters projectpath
                inputfiles rest (some fname2) (some parentfile)
              .ok ((fname2, record) :: restRecords)

/-- OutputTemplate.generate.  Line 671 rebinds the inputfiles argument to the
empty list before any use.  With a parent set, the parent id is resolved via
_getparent and the matching parent files drive the loop; without one, a
unique template with a literal filename reaches `yield filename` with the
local `filename` never assigned on that path, and anything else raises the
unresolvable-template exception. -/
def OutputTemplate.generate (o : OutputTemplate) (profile : Profile)
    (parameters : Params) (projectpath : ProjectState)
    (_inputfiles : List (Int × String × InputTemplate)) :
    Except PyErr (List (String × MetaRecord)) :=
  let inputfiles : List (Int × String × InputTemplate) := []
  if optStrTruthy o.parent then do
    let parent ← o.getparent profile
    let parentinputfiles := parent.matchingfiles projectpath
    if parentinputfiles.isEmpty then
      .error (.exception ("OutputTemplate " ++ o.id ++
        " has a parent, but no matching input files were found!"))
    else
      OutputTemplate.generateLoop o parameters projectpath inputfiles
        parentinputfiles Option.none Option.none
  else if o.unique && optStrTruthy o.filename then
    .error (.unboundLocalError "local variable filename referenced before assignment")
  else
    .error (.exception "Unable to generate from OutputTemplate, no parent or filename specified")

/-- The ParameterCondition check of Profile.match: every condition appearing
directly in the output list must match the submitted parameters. -/
def Profile.matchEntries (parameters : Params) : List Branch → Except PyErr Bool
  | [] => .ok true
  | (.condT c) :: rest => do
      let m ← c.matches parameters
      if !m then .ok false else Profile.matchEntries parameters rest
  | _ :: rest => Profile.matchEntries parameters rest

/-- Profile.match: every InputTemplate must have matching files (an empty
input list matches vacuously), the output list must be non-empty, and every
ParameterCondition in the output list must match. -/
def Profile.matches (p : Profile) (projectpath : ProjectState) (parameters : Params) :
    Except PyErr Bool :=
  if p.input.any (fun t => (t.matchingfiles projectpath).isEmpty) then .ok false
  else if p.output.isEmpty then .ok false
  else Profile.matchEntries parameters p.output

/-- The call `inputtemplate.matchfiles(projectpath)` at source line 87:
InputTemplate defines no method named matchfiles (only matchingfiles, line
386), so the attribute lookup raises AttributeError. -/
def InputTemplate.matchfiles (_t : InputTemplate) (_projectpath : ProjectState) :
    Except PyErr (List (Int × String × InputTemplate)) :=
  .error (.attributeError "InputTemplate object has no attribute matchfiles")

def Profile.matchingfilesGo (projectpath : ProjectState) :
    List InputTemplate → List (Int × String × InputTemplate) →
    Except PyErr (List (Int × String × InputTemplate))
  | [], l => .ok l
  | it :: rest, l => do
      let r ← it.matchfiles projectpath
      Profile.matchingfilesGo projectpath rest (l ++ r)

/-- Profile.matchingfiles: accumulates inputtemplate.matchfiles over the
input list.  Since that method does not exist, the loop raises
AttributeError on the first input template; only a profile with an empty
input list returns (the empty list). -/
def Profile.matchingfiles (p : Profile) (projectpath : ProjectState) :
    Except PyErr (List (Int × String × InputTemplate)) :=
  Profile.matchingfilesGo projectpath p.input []

/-- The output loop of Profile.generate: a matching ParameterCondition is
replaced by its evaluation result, then every truthy entry is tested with
isinstance(outputtemplate, AbstractMetaField).  OutputTemplates, evaluated
branches and non-matching conditions are never metafields, so the else branch
raises a bare TypeError instead of delegating to OutputTemplate.generate. -/
def Profile.generateEntries (parameters : Params) : List Branch → Except PyErr Unit
  | [] => .ok ()
  | entry :: rest => do
      let resolved ←
        match entry with
        | .condT c => do
            let m ← c.matches parameters
            if m then c.evaluate parameters
            else .ok (EvalResult.branch entry)
        | e => .ok (EvalResult.branch e)
      if evalResultTruthy resolved then
        .error (.typeError "")
      else
        Profile.generateEntries parameters rest

/-- Profile.generate: re-checks match, gathers the matching input files
(which raises AttributeError for any non-empty input list, see
Profile.matchingfiles), and runs the output loop; a non-matching profile
generates nothing. -/
def Profile.generate (p : Profile) (projectpath : ProjectState) (parameters : Params) :
    Except PyErr Unit := do
  let m ← p.matches projectpath parameters
  if m then
    let _inputfiles ← p.matchingfiles projectpath
    Profile.generateEntries parameters p.output
  else
    .ok ()

mutual

/-- Profile.__init__ validation of one possibility collected from a
ParameterCondition: a possibility that is not an OutputTemplate raises, and
an automatically found parent is assigned in place; the orphan raise of the
source sits nested inside `if parent:` and can never fire, so a possibility
with no resolvable parent passes through unchanged. -/
def checkOrphanPos (input : List InputTemplate) :
    Option Branch → Except PyErr (Option Branch)
  | Option.none =>
      .error (.exception "ParameterConditions in profiles must always evaluate to OutputTemplate!")
  | some (.inputT _) =>
      .error (.exception "ParameterConditions in profiles must always evaluate to OutputTemplate!")
  | some (.outputT o) =>
      let parent := o.findparent input
      if optStrTruthy parent then .ok (some (.outputT (o.setParent parent)))
      else .ok (some (.outputT o))
  | some (.condT c) => do
      let c ← checkOrphanPC input c
      .ok (some (.condT c))

/-- Walk of the possibilities of a ParameterCondition in allpossibilities
order (then first, then otherwise when present), rebuilding the condition
with the in-place parent assignments. -/
def checkOrphanPC (input : List InputTemplate) :
    ParameterCondition → Except PyErr ParameterCondition
  | .mk conds disj clos thenB otherB => do
      let thenB ←
        match thenB with
        | some (.condT c) => do
            let c ← checkOrphanPC input c
            pure (some (Branch.condT c))
        | t => checkOrphanPos input t
      let otherB ←
        match otherB with
        | Option.none => pure Option.none
        | some (.condT c) => do
            let c ← checkOrphanPC input c
            pure (some (Branch.condT c))
        | some b => checkOrphanPos input (some b)
      .ok (.mk conds disj clos thenB otherB)

end

/-- Profile.__init__ validation of one output entry: ParameterConditions are
expanded and validated, a plain OutputTemplate without a truthy parent gets
the automatically found one and raises when none is found and it is not a
unique template with a literal filename. -/
def checkOrphanEntry (input : List InputTemplate) : Branch → Except PyErr Branch
  | .condT c => do
      let c ← checkOrphanPC input c
      .ok (.condT c)
  | .outputT o =>
      if !optStrTruthy o.parent then
        let o := o.setParent (o.findparent input)
        if !optStrTruthy o.parent && !(optStrTruthy o.filename && o.unique) then
          .error (.exception ("Outputtemplate " ++ o.id ++
            " has no parent defined, and none could be found automatically!"))
        else .ok (.outputT o)
      else .ok (.outputT o)
  | .inputT t => .ok (.inputT t)

/-- Profile.__init__: sort the arguments into input and output lists (a
ParameterCondition goes to the output list), then run the orphan check over
every output entry. -/
def Profile.init (args : List Branch) : Except PyErr Profile := do
  let input := args.filterMap (fun a =>
    match a with
    | .inputT t => some t
    | _ => Option.none)
  let output := args.filterMap (fun a =>
    match a with
    | .outputT _ => some a
    | .condT _ => some a
    | .inputT _ => Option.none)
  let output ← output.mapM (checkOrphanEntry input)
  .ok ⟨input, output⟩

def exceptIsOk {ε α : Type} : Except ε α → Bool
  | .ok _ => true
  | .error _ => false

def projEmpty : ProjectState := ⟨[], []⟩

def otC1 : OutputTemplate :=
  .mk "result" "Result" Option.none true [] true (some "result.txt") Option.none
    (.exts []) Option.none false

/-- C1: contrary to the documented delegation, Profile.generate raises a bare
TypeError on a matching profile whose output entry is an OutputTemplate,
because the loop tests isinstance(outputtemplate, AbstractMetaField) instead
of OutputTemplate before delegating. -/
theorem C1_profile_generate_raises_typeerror :
    (Profile.init [.outputT otC1]).bind (fun p => p.generate projEmpty []) =
      .error (.typeError "") := rfl

def itC2 : InputTemplate := ⟨"intoken", "Input tokens", false, Option.none, Option.none⟩

def otC2 : OutputTemplate :=
  .mk "outtoken" "Output tokens" Option.none true [] false (some "out#.txt")
    Option.none (.exts []) (some "intoken") false

def projC2 : ProjectState :=
  ⟨[("intoken", 1, "in1.txt"), ("intoken", 2, "in2.txt"), ("intoken", 3, "in3.txt")], []⟩

def profC2 : Profile := ⟨[itC2], [.outputT otC2]⟩

/-- C2: with a non-unique filename pattern out#.txt and parent files at
sequence numbers 1, 2, 3, OutputTemplate.generate does not yield out1.txt,
out2.txt, out3.txt: parent-id resolution raises AttributeError through
InputTemplate.__eq__, and the later replace of the placeholder discards its
result anyway. -/
theorem C2_hash_substitution_fails :
    otC2.generate profC2 [] projC2
      [(1, "in1.txt", itC2), (2, "in2.txt", itC2), (3, "in3.txt", itC2)] =
      .error (.attributeError "str object has no attribute id") := rfl

def otC3 : OutputTemplate :=
  .mk "report" "Report" Option.none true [] true (some "result.txt") Option.none
    (.exts []) Option.none false

/-- C3: a unique, parentless OutputTemplate with the literal filename
result.txt does not yield a single (result.txt, record) pair: the yield on
the parentless path references the local variable filename, which is never
assigned there, raising UnboundLocalError. -/
theorem C3_parentless_unique_crashes :
    otC3.generate ⟨[], [.outputT otC3]⟩ [] projEmpty [] =
      .error (.unboundLocalError "local variable filename referenced before assignment") := rfl

def itC4 : InputTemplate := ⟨"tok", "Tokens", true, Option.none, Option.none⟩

def otC4 : OutputTemplate :=
  .mk "tagged" "Tagged" Option.none true [.mf (.copy "lang" "tok")] true
    Option.none Option.none (.exts []) (some "tok") false

def projC4 : ProjectState := ⟨[("tok", 1, "doc.txt")], [("doc.txt", [("lang", .str "en")])]⟩

def profC4 : Profile := ⟨[itC4], [.outputT otC4]⟩

/-- C4: the inputfiles argument of OutputTemplate.generate is rebound to the
empty list before any use and parent resolution raises AttributeError, so the
result is the same error for every supplied list of matched input files and
no metadata resolution ever receives a non-empty relevant-input set. -/
theorem C4_relevant_inputs_never_populated
    (inputfiles : List (Int × String × InputTemplate)) :
    otC4.generate profC4 [] projC4 inputfiles =
      .error (.attributeError "str object has no attribute id") := rfl

def otTerm : OutputTemplate :=
  .mk "branchout" "Branch output" Option.none true [] true (some "b.txt")
    Option.none (.exts []) Option.none false

def pcC5 : ParameterCondition :=
  ParameterCondition.fromKwargs
    [("then", .br (.outputT otTerm)), ("a_equals", .val (.int 1)),
     ("b_equals", .val (.int 2))]

/-- C5: in conjunction mode match is not the conjunction of each condition
evaluated on its own pair: all condition lambdas close over the one kwargs
loop variable and compare against its final value (here 2), so parameters
a=2, b=2 match even though the condition requiring a=1 fails on its own
pair. -/
theorem C5_conjunction_uses_shared_closure :
    pcC5.matches [("a", .int 2), ("b", .int 2)] = .ok true
      ∧ specMatch pcC5 [("a", .int 2), ("b", .int 2)] = false := ⟨rfl, rfl⟩

def pcC6lt : ParameterCondition :=
  ParameterCondition.fromKwargs
    [("then", .br (.outputT otTerm)), ("x_lessthan", .val (.int 5))]

def pcC6ge : ParameterCondition :=
  ParameterCondition.fromKwargs
    [("then", .br (.outputT otTerm)), ("x_greaterequalthan", .val (.int 5))]

/-- C6: the lessthan condition is evaluated with the lambda `x >= value` and
greaterequalthan with `x > value`: x=7 satisfies x_lessthan=5 and x=5 fails
x_greaterequalthan=5, the opposite of the documented strict-less /
greater-or-equal semantics. -/
theorem C6_comparison_operators_flipped :
    pcC6lt.matches [("x", .int 7)] = .ok true
      ∧ specMatch pcC6lt [("x", .int 7)] = false
      ∧ pcC6ge.matches [("x", .int 5)] = .ok false
      ∧ specMatch pcC6ge [("x", .int 5)] = true := ⟨rfl, rfl, rfl, rfl⟩

def pcC7leaf : ParameterCondition :=
  ParameterCondition.fromKwargs
    [("then", .br (.outputT otTerm)), ("lang_equals", .val (.str "en"))]

def pcC7nested : ParameterCondition :=
  ParameterCondition.fromKwargs [("then", .br (.condT pcC7leaf))]

/-- C7: with no otherwise branch and a failing match, evaluate returns the
False no-match sentinel and never the then branch; but on a nested then it
raises TypeError, because the source calls self.then.evaluate() without the
parameters argument instead of recursively resolving against the same
parameters. -/
theorem C7_nested_evaluate_raises :
    pcC7leaf.evaluate [] = .ok .pyFalse
      ∧ pcC7nested.evaluate [("lang", .str "en")] =
          .error (.typeError "evaluate() takes exactly 2 arguments (1 given)") := ⟨rfl, rfl⟩

def schemaC8 : AttrSchema := [("encoding", .listV [.str "utf-8", .bool false])]

/-- C8: with an enumeration containing the absent-sentinel False, leaving the
key out of the supplied attributes does not succeed: the required-check is
escaped but the elif then evaluates self[key] on the absent key and raises
KeyError; supplying a value outside the enumeration fails with the
invalid-value ValueError as documented. -/
theorem C8_absent_sentinel_keyerror :
    CLAMMetaData.init (some schemaC8) true .pynone [] = .error (.keyError "encoding")
      ∧ CLAMMetaData.init (some schemaC8) true .pynone [("encoding", .str "latin1")] =
          .error (.valueError "Attribute assignment encoding has an invalid value") := ⟨rfl, rfl⟩

def itC9 : InputTemplate := ⟨"src", "Source", true, Option.none, Option.none⟩

def otC9 : OutputTemplate :=
  .mk "orphan" "Orphan" Option.none true [] false Option.none Option.none
    (.exts []) Option.none false

def pcC9 : ParameterCondition :=
  ParameterCondition.fromKwargs [("then", .br (.outputT otC9))]

/-- C9: an OutputTemplate reachable only through a ParameterCondition, with
no explicit parent, none automatically resolvable (unique flags differ) and
no unique literal filename, does not make Profile construction fail — the
orphan raise in that branch is nested inside `if parent:` and unreachable —
while the same OutputTemplate placed directly in the output list does fail. -/
theorem C9_pc_orphan_not_detected :
    exceptIsOk (Profile.init [.inputT itC9, .condT pcC9]) = true
      ∧ exceptIsOk (Profile.init [.inputT itC9, .outputT otC9]) = false := ⟨rfl, rfl⟩

/-- C10: with an empty condition list, match returns ok true for every
parameter map under conjunction (the default) and ok false under
disjunction. -/
theorem C10_empty_conditions_match (parameters : Params) (disj : Bool)
    (clos : Option KwVal) (thenB otherB : Option Branch) :
    (ParameterCondition.mk [] (.val (.bool disj)) clos thenB otherB).matches parameters
      = .ok (!disj) := by
  cases disj <;> rfl
